import Mathlib

/-!
# Verification of the sonic-mgmt `vm_topology` binding engine

Shallow embedding of `ansible/roles/vm_set/library/vm_topology.py` and proofs
about its naming rules, port-reference parsing, topology validation, command
gateway and OVS flow programming.
-/

namespace VmTopology

/-! ## Identifier deriver: `adaptive_name` (vm_topology.py lines 194-210) -/

/-- Python string slice `s[:n]` on a list of characters, with Python's
negative-index semantics: for `n < 0` the result is the first
`max 0 (len + n)` characters. -/
def pySlicePrefix (l : List Char) (n : Int) : List Char :=
  if 0 ≤ n then l.take n.toNat else l.take (l.length - n.natAbs)

/-- Embedding of `adaptive_name(template, host, index)`:
`host_index_str = '-%s-%d' % (host, index)`;
`leading_len = 15 - len(host_index_str)`;
`leading_characters = template.split('-')[0][:leading_len]`;
returns `leading_characters + host_index_str`. -/
def adaptive_name (template host : String) (index : Nat) : String :=
  let host_index_str := "-" ++ host ++ "-" ++ Nat.repr index
  let leading_len : Int := 15 - (host_index_str.length : Int)
  let leading_characters := pySlicePrefix ((template.data.splitOn '-').headD []) leading_len
  String.mk (leading_characters ++ host_index_str.data)

/-! ## MD5 (reference implementation, used by `adaptive_temporary_interface`)

The Python code calls `hashlib.md5(...).hexdigest()`. We embed MD5 itself so
that the hash-dependent naming function is fully executable. 32-bit machine
arithmetic is modelled on `Nat` with explicit reduction modulo `2^32`. -/

def m32 : Nat := 4294967296

def rotl32 (x s : Nat) : Nat := ((x <<< s) % m32) ||| (x >>> (32 - s))

/-- The 64 MD5 sine-derived round constants. -/
def md5K : List Nat :=
  [0xd76aa478, 0xe8c7b756, 0x242070db, 0xc1bdceee,
   0xf57c0faf, 0x4787c62a, 0xa8304613, 0xfd469501,
   0x698098d8, 0x8b44f7af, 0xffff5bb1, 0x895cd7be,
   0x6b901122, 0xfd987193, 0xa679438e, 0x49b40821,
   0xf61e2562, 0xc040b340, 0x265e5a51, 0xe9b6c7aa,
   0xd62f105d, 0x02441453, 0xd8a1e681, 0xe7d3fbc8,
   0x21e1cde6, 0xc33707d6, 0xf4d50d87, 0x455a14ed,
   0xa9e3e905, 0xfcefa3f8, 0x676f02d9, 0x8d2a4c8a,
   0xfffa3942, 0x8771f681, 0x6d9d6122, 0xfde5380c,
   0xa4beea44, 0x4bdecfa9, 0xf6bb4b60, 0xbebfbc70,
   0x289b7ec6, 0xeaa127fa, 0xd4ef3085, 0x04881d05,
   0xd9d4d039, 0xe6db99e5, 0x1fa27cf8, 0xc4ac5665,
   0xf4292244, 0x432aff97, 0xab9423a7, 0xfc93a039,
   0x655b59c3, 0x8f0ccc92, 0xffeff47d, 0x85845dd1,
   0x6fa87e4f, 0xfe2ce6e0, 0xa3014314, 0x4e0811a1,
   0xf7537e82, 0xbd3af235, 0x2ad7d2bb, 0xeb86d391]

/-- The 64 MD5 per-round left-rotation amounts. -/
def md5S : List Nat :=
  [7, 12, 17, 22, 7, 12, 17, 22, 7, 12, 17, 22, 7, 12, 17, 22,
   5, 9, 14, 20, 5, 9, 14, 20, 5, 9, 14, 20, 5, 9, 14, 20,
   4, 11, 16, 23, 4, 11, 16, 23, 4, 11, 16, 23, 4, 11, 16, 23,
   6, 10, 15, 21, 6, 10, 15, 21, 6, 10, 15, 21, 6, 10, 15, 21]

/-- Little-endian byte decomposition of a 32-bit word. -/
def leBytes4 (x : Nat) : List Nat :=
  [x % 256, x / 256 % 256, x / 65536 % 256, x / 16777216 % 256]

def leBytes8 (x : Nat) : List Nat := leBytes4 (x % m32) ++ leBytes4 (x / m32 % m32)

/-- MD5 padding: a `0x80` byte, zeros to 56 mod 64, then the 64-bit bit length. -/
def md5Pad (msg : List Nat) : List Nat :=
  msg ++ [128] ++ List.replicate ((119 - msg.length % 64) % 64) 0 ++ leBytes8 (8 * msg.length)

def chunks64Go : Nat → List Nat → List (List Nat)
  | _, [] => []
  | 0, _ => []
  | fuel + 1, l => l.take 64 :: chunks64Go fuel (l.drop 64)

/-- Split a byte list into 64-byte blocks (structural fuel recursion so that it
reduces inside the kernel; the fuel `l.length` always suffices). -/
def chunks64 (l : List Nat) : List (List Nat) := chunks64Go l.length l

/-- Little-endian 32-bit word `j` of a 64-byte block. -/
def leWord (b : List Nat) (j : Nat) : Nat :=
  b.getD (4 * j) 0 + 256 * b.getD (4 * j + 1) 0 + 65536 * b.getD (4 * j + 2) 0
    + 16777216 * b.getD (4 * j + 3) 0

/-- One MD5 round on state `(a, b, c, d)`. -/
def md5Round (M : Nat → Nat) (st : Nat × Nat × Nat × Nat) (i : Nat) : Nat × Nat × Nat × Nat :=
  let a := st.1
  let b := st.2.1
  let c := st.2.2.1
  let d := st.2.2.2
  let f :=
    if i < 16 then (b &&& c) ||| ((b ^^^ 4294967295) &&& d)
    else if i < 32 then (d &&& b) ||| ((d ^^^ 4294967295) &&& c)
    else if i < 48 then b ^^^ c ^^^ d
    else c ^^^ (b ||| (d ^^^ 4294967295))
  let g :=
    if i < 16 then i
    else if i < 32 then (5 * i + 1) % 16
    else if i < 48 then (3 * i + 5) % 16
    else (7 * i) % 16
  let f2 := (f + a + md5K.getD i 0 + M g) % m32
  (d, (b + rotl32 f2 (md5S.getD i 0)) % m32, b, c)

def md5Block (st : Nat × Nat × Nat × Nat) (block : List Nat) : Nat × Nat × Nat × Nat :=
  let r := (List.range 64).foldl (md5Round (leWord block)) st
  ((st.1 + r.1) % m32, (st.2.1 + r.2.1) % m32, (st.2.2.1 + r.2.2.1) % m32,
   (st.2.2.2 + r.2.2.2) % m32)

/-- MD5 digest (16 bytes) of a byte list. Validated against `hashlib.md5` on
the empty string, "a", "abc", multi-block inputs and the concrete strings used
in the theorems below. -/
def md5Digest (msg : List Nat) : List Nat :=
  let st := (chunks64 (md5Pad msg)).foldl md5Block (1732584193, 4023233417, 2562383102, 271733878)
  leBytes4 st.1 ++ leBytes4 st.2.1 ++ leBytes4 st.2.2.1 ++ leBytes4 st.2.2.2

def hexDigit (n : Nat) : Char := if n < 10 then Char.ofNat (48 + n) else Char.ofNat (87 + n)

def hexOfBytes : List Nat → List Char
  | [] => []
  | b :: rest => hexDigit (b / 16) :: hexDigit (b % 16) :: hexOfBytes rest

/-- The lowercase hex digest, as `hashlib.md5(x).hexdigest()` returns it. -/
def md5hex (msg : List Nat) : List Char := hexOfBytes (md5Digest msg)

/-- UTF-8 encoding of an ASCII string (`str.encode("utf-8")`); all names fed to
the hash in `vm_topology.py` are ASCII, for which the bytes are the code points. -/
def strBytes (s : String) : List Nat := s.data.map Char.toNat

theorem length_hexOfBytes (l : List Nat) : (hexOfBytes l).length = 2 * l.length := by
  induction l with
  | nil => rfl
  | cons b t ih => simp [hexOfBytes, ih]; omega

theorem length_md5Digest (msg : List Nat) : (md5Digest msg).length = 16 := by
  simp [md5Digest, leBytes4]

theorem length_md5hex (msg : List Nat) : (md5hex msg).length = 32 := by
  simp [md5hex, length_hexOfBytes, length_md5Digest]

/-! ## Identifier deriver: `adaptive_temporary_interface` (lines 213-231) -/

/-- Python exception values raised by the embedded functions. -/
inductive PyErr where
  | valueError (msg : String)
  | typeError (msg : String)
  | attributeError (msg : String)
deriving DecidableEq, Repr

/-- Embedding of `adaptive_temporary_interface(vm_set_name, interface_name,
reserved_space)`: `MAX_LEN = 15 - reserved_space`, `t_suffix = "_t"`,
`HASH_LEN = 6`; raises `ValueError` when `MAX_LEN < HASH_LEN + len(t_suffix)`
(written `6 + 2` below); otherwise, with `ptf_name = PTF_NAME_TEMPLATE %
vm_set_name = "ptf_" + vm_set_name`, returns
`md5(ptf_name)[:6] + interface_name + "_t"` when the interface name fits the
budget, and `md5(ptf_name + interface_name)[:6] + "_t"` otherwise. -/
def adaptive_temporary_interface (vm_set_name interface_name : String)
    (reserved_space : Nat) : Except PyErr String :=
  let MAX_LEN : Int := 15 - (reserved_space : Int)
  if MAX_LEN < 6 + 2 then
    .error (.valueError "Requested length is too short to get temporary interface name.")
  else
    let ptf_name := "ptf_" ++ vm_set_name
    if (interface_name.length : Int) ≤ MAX_LEN - 2 - 6 then
      .ok (String.mk ((md5hex (strBytes ptf_name)).take 6 ++ interface_name.data ++ "_t".data))
    else
      .ok (String.mk ((md5hex (strBytes (ptf_name ++ interface_name))).take 6 ++ "_t".data))

theorem ati_error_case (v i : String) (r : Nat) (hc : (15 : Int) - (r : Int) < 8) :
    adaptive_temporary_interface v i r
      = .error (.valueError "Requested length is too short to get temporary interface name.") := by
  unfold adaptive_temporary_interface
  rw [if_pos (by omega)]

theorem ati_short_case (v i : String) (r : Nat) (hc : ¬ ((15 : Int) - (r : Int) < 8))
    (hs : (i.length : Int) ≤ 15 - (r : Int) - 2 - 6) :
    adaptive_temporary_interface v i r
      = .ok (String.mk ((md5hex (strBytes ("ptf_" ++ v))).take 6 ++ i.data ++ "_t".data)) := by
  unfold adaptive_temporary_interface
  rw [if_neg (by omega), if_pos (by omega)]

theorem ati_long_case (v i : String) (r : Nat) (hc : ¬ ((15 : Int) - (r : Int) < 8))
    (hs : ¬ ((i.length : Int) ≤ 15 - (r : Int) - 2 - 6)) :
    adaptive_temporary_interface v i r
      = .ok (String.mk ((md5hex (strBytes ("ptf_" ++ v ++ i))).take 6 ++ "_t".data)) := by
  unfold adaptive_temporary_interface
  rw [if_neg (by omega), if_neg (by omega)]

/-- C8: `adaptive_temporary_interface` raises `ValueError` exactly when the
budget `15 - reserved_space` is below the minimal hash-plus-suffix length
`6 + 2 = 8`; whenever it returns a name, that name has at most
`15 - reserved_space` bytes. -/
theorem adaptive_temporary_interface_budget (v i : String) (r : Nat) :
    ((∃ m, adaptive_temporary_interface v i r = .error m) ↔ (15 : Int) - (r : Int) < 8) ∧
    ∀ t, adaptive_temporary_interface v i r = .ok t → (t.length : Int) ≤ 15 - (r : Int) := by
  by_cases hc : (15 : Int) - (r : Int) < 8
  · refine ⟨⟨fun _ => hc, fun _ => ⟨_, ati_error_case v i r hc⟩⟩, ?_⟩
    intro t ht
    rw [ati_error_case v i r hc] at ht
    exact absurd ht (by simp)
  · constructor
    · constructor
      · rintro ⟨m, hm⟩
        by_cases hs : (i.length : Int) ≤ 15 - (r : Int) - 2 - 6
        · rw [ati_short_case v i r hc hs] at hm; exact absurd hm (by simp)
        · rw [ati_long_case v i r hc hs] at hm; exact absurd hm (by simp)
      · intro h; exact absurd h hc
    · intro t ht
      by_cases hs : (i.length : Int) ≤ 15 - (r : Int) - 2 - 6
      · rw [ati_short_case v i r hc hs] at ht
        have ht' : t = String.mk ((md5hex (strBytes ("ptf_" ++ v))).take 6 ++ i.data ++ "_t".data) :=
          ((Except.ok.injEq _ _).mp ht).symm
        subst ht'
        have hA : ((md5hex (strBytes ("ptf_" ++ v))).take 6).length = 6 := by
          rw [List.length_take, length_md5hex]; omega
        show ((((md5hex (strBytes ("ptf_" ++ v))).take 6 ++ i.data ++ "_t".data).length : Nat) : Int)
          ≤ 15 - (r : Int)
        rw [List.length_append, List.length_append, hA]
        have hB : ("_t".data).length = 2 := rfl
        have hI : i.data.length = i.length := rfl
        rw [hB, hI]
        omega
      · rw [ati_long_case v i r hc hs] at ht
        have ht' : t = String.mk ((md5hex (strBytes ("ptf_" ++ v ++ i))).take 6 ++ "_t".data) :=
          ((Except.ok.injEq _ _).mp ht).symm
        subst ht'
        have hA : ((md5hex (strBytes ("ptf_" ++ v ++ i))).take 6).length = 6 := by
          rw [List.length_take, length_md5hex]; omega
        show ((((md5hex (strBytes ("ptf_" ++ v ++ i))).take 6 ++ "_t".data).length : Nat) : Int)
          ≤ 15 - (r : Int)
        rw [List.length_append, hA]
        have hB : ("_t".data).length = 2 := rfl
        rw [hB]
        omega

set_option maxRecDepth 10000 in
/-- Witness for `adaptive_temporary_interface_budget`: on `("vms", "eth0", 0)`
the function returns `"394d52eth0_t"` (md5 of `ptf_vms` starts with `394d52`),
whose length is within the budget. -/
theorem adaptive_temporary_interface_budget_witness :
    adaptive_temporary_interface "vms" "eth0" 0 = .ok "394d52eth0_t" ∧
    (("394d52eth0_t" : String).length : Int) ≤ 15 - ((0 : Nat) : Int) :=
  ⟨rfl, (adaptive_temporary_interface_budget "vms" "eth0" 0).2 "394d52eth0_t" rfl⟩

set_option maxRecDepth 10000 in
/-- C7 counterexample: `adaptive_temporary_interface` is NOT injective in the
interface name under a fixed context. The distinct long interface names
`iface0000149` and `iface0002827` both hash (after the `ptf_vms` seed) to the
6-hex-digit prefix `c11ab3`, so both get the temporary name `c11ab3_t`. -/
theorem adaptive_temporary_interface_collision :
    ("iface0000149" : String) ≠ "iface0002827" ∧
    adaptive_temporary_interface "vms" "iface0000149" 0
      = adaptive_temporary_interface "vms" "iface0002827" 0 := by
  exact ⟨by decide, rfl⟩

/-- C7 (amended): `adaptive_temporary_interface` is deterministic — equal
argument triples give equal results — and it is injective in the interface
name under a fixed context whenever both interface names fit the short-name
budget `15 - reserved_space - 8` (for longer names only the 6-hex-digit hash
prefix distinguishes them, and such prefixes can collide). -/
theorem adaptive_temporary_interface_det_inj (v v' i1 i2 : String) (r r' : Nat) :
    (v = v' → i1 = i2 → r = r' →
      adaptive_temporary_interface v i1 r = adaptive_temporary_interface v' i2 r') ∧
    (r ≤ 7 → (i1.length : Int) ≤ 15 - (r : Int) - 8 → (i2.length : Int) ≤ 15 - (r : Int) - 8 →
      i1 ≠ i2 →
      adaptive_temporary_interface v i1 r ≠ adaptive_temporary_interface v i2 r) := by
  constructor
  · rintro rfl rfl rfl; rfl
  · intro hr h1 h2 hne heq
    rw [ati_short_case v i1 r (by omega) (by omega),
        ati_short_case v i2 r (by omega) (by omega)] at heq
    apply hne
    have hmk : String.mk ((md5hex (strBytes ("ptf_" ++ v))).take 6 ++ i1.data ++ "_t".data)
        = String.mk ((md5hex (strBytes ("ptf_" ++ v))).take 6 ++ i2.data ++ "_t".data) := by
      exact (Except.ok.injEq _ _).mp heq
    have hdata : i1.data = i2.data := by
      have h := congrArg String.data hmk
      simp only [List.append_assoc] at h
      have h' := List.append_cancel_left h
      exact List.append_cancel_right h'
    calc i1 = String.mk i1.data := rfl
      _ = String.mk i2.data := by rw [hdata]
      _ = i2 := rfl

set_option maxRecDepth 10000 in
/-- Witness for `adaptive_temporary_interface_det_inj` at concrete inputs. -/
theorem adaptive_temporary_interface_det_inj_witness :
    adaptive_temporary_interface "vms" "eth0" 0 ≠ adaptive_temporary_interface "vms" "eth1" 0 :=
  (adaptive_temporary_interface_det_inj "vms" "vms" "eth0" "eth1" 0 0).2
    (by decide) (by decide) (by decide) (by decide)

/-- C3: whenever the `-<host>-<index>` suffix fits in 15 bytes, `adaptive_name`
produces a name of at most 15 bytes consisting of the template's first
dash-separated token truncated to the remaining budget followed by that
suffix; in particular `adaptive_name "inje-%s-%d" "vms7-6" 21 = "inje-vms7-6-21"`
and `adaptive_name "inje-%s-%d" "vms121-1" 121 = "in-vms121-1-121"`. -/
theorem adaptive_name_spec (template host : String) (index : Nat)
    (h : ("-" ++ host ++ "-" ++ Nat.repr index).length ≤ 15) :
    (adaptive_name template host index).length ≤ 15 ∧
    (adaptive_name template host index).data
      = ((template.data.splitOn '-').headD []).take
          (15 - ("-" ++ host ++ "-" ++ Nat.repr index).length)
        ++ ("-" ++ host ++ "-" ++ Nat.repr index).data ∧
    adaptive_name "inje-%s-%d" "vms7-6" 21 = "inje-vms7-6-21" ∧
    adaptive_name "inje-%s-%d" "vms121-1" 121 = "in-vms121-1-121" := by
  set S : String := "-" ++ host ++ "-" ++ Nat.repr index with hS
  have hdata : (adaptive_name template host index).data
      = ((template.data.splitOn '-').headD []).take (15 - S.length) ++ S.data := by
    unfold adaptive_name
    dsimp only
    rw [← hS]
    congr 1
    unfold pySlicePrefix
    rw [if_pos (by omega)]
    congr 1
    omega
  refine ⟨?_, hdata, by decide, by decide⟩
  have hlen : (adaptive_name template host index).length
      = ((adaptive_name template host index).data).length := rfl
  rw [hlen, hdata, List.length_append, List.length_take]
  have hSlen : S.data.length = S.length := rfl
  omega

/-- Witness for `adaptive_name_spec` at a concrete input. -/
theorem adaptive_name_spec_witness :
    ("-" ++ "vms7-6" ++ "-" ++ Nat.repr 21).length ≤ 15 ∧
    (adaptive_name "inje-%s-%d" "vms7-6" 21).length ≤ 15 :=
  ⟨by decide, (adaptive_name_spec "inje-%s-%d" "vms7-6" 21 (by decide)).1⟩

/-! ## Port references: `parse_vm_vlan_port` (lines 1911-1929) -/

/-- A Python value appearing as a port reference in a topology: an `int` or a
`str`. -/
inductive PyVal where
  | int (n : Int)
  | str (s : String)
deriving DecidableEq, Repr

/-- Value of a nonempty digit string, as Python `int()` reads it. -/
def digitsVal (l : List Char) : Nat := l.foldl (fun a c => 10 * a + (c.toNat - 48)) 0

/-- `re.match(r"(\d+)\.(\d+)@(\d+)", s)`: anchored at the start only; each
`\d+` greedily takes digits (no backtracking arises since `.` and `@` are not
digits); trailing characters are ignored. Returns the three groups. -/
def matchVlanTriple (s : List Char) : Option (Nat × Nat × Nat) :=
  let d1 := s.takeWhile Char.isDigit
  let r1 := s.dropWhile Char.isDigit
  if d1.isEmpty then none
  else match r1 with
    | '.' :: r2 =>
      let d2 := r2.takeWhile Char.isDigit
      let r3 := r2.dropWhile Char.isDigit
      if d2.isEmpty then none
      else match r3 with
        | '@' :: r4 =>
          let d3 := r4.takeWhile Char.isDigit
          if d3.isEmpty then none
          else some (digitsVal d1, digitsVal d2, digitsVal d3)
        | _ => none
    | _ => none

/-- Embedding of `VMTopology.parse_vm_vlan_port(vlan)`. An `int` yields
`(0, vlan, vlan)`. A `str` is matched against the regex above; on a match the
three integer groups are returned; on a failed match the Python code calls
`m.group(1)` on `None` and raises `AttributeError` — modelled as `none`. -/
def parse_vm_vlan_port : PyVal → Option (Int × Int × Int)
  | .int n => some (0, n, n)
  | .str s => (matchVlanTriple s.data).map (fun t => ((t.1 : Int), (t.2.1 : Int), (t.2.2 : Int)))

/-- C2 counterexample: parsing the `@`-less port reference `"1.2"` does not
yield `(1, 2, 2)` — the regex requires the `@<ptf>` part, so the match is
`None` and the code crashes instead of defaulting `ptf_index`. -/
theorem parse_vm_vlan_port_no_default :
    parse_vm_vlan_port (.str "1.2") = none ∧
    parse_vm_vlan_port (.str "1.2") ≠ some (1, 2, 2) := by
  exact ⟨by decide, by decide⟩

/-- C2 (amended): `"1.2@3"` parses to `(1, 2, 3)` and a bare integer `v`
parses to `(0, v, v)`, but a port reference without the `@<ptf>` part gets no
default: `parse_vm_vlan_port "1.2"` fails (regex mismatch, `AttributeError`
on `m.group(1)`). -/
theorem parse_vm_vlan_port_spec (v : Int) :
    parse_vm_vlan_port (.str "1.2@3") = some (1, 2, 3) ∧
    parse_vm_vlan_port (.int v) = some (0, v, v) ∧
    parse_vm_vlan_port (.str "1.2") = none := by
  exact ⟨by decide, rfl, by decide⟩

/-! ## OVS flow programming: `bind_ovs_ports` (lines 1123-1261)

Each `ovs-ofctl add-flow` invocation is modelled structurally: its explicit
`priority=` field (absent fields are `none`), its protocol keyword, its extra
match fields, the `in_port` and the action. The list below transcribes the
`add-flow` calls of `bind_ovs_ports` in source order; in batch mode the same
rules are written to a flow file instead of issued one by one. -/

inductive FlowAction where
  | drop
  | output (ports : List Nat)
deriving DecidableEq, Repr

structure FlowRule where
  priority : Option Nat
  proto : Option String
  matchFields : List (String × String)
  in_port : Nat
  action : FlowAction
deriving DecidableEq, Repr

/-- The flow rules installed by `bind_ovs_ports` after `ovs-ofctl del-flows`,
given the OVS port ids of the DUT-facing, PTF-injected and VM-facing ports,
in source order. -/
def bind_ovs_ports_flows (dut injected vm : Nat) (disconnect_vm : Bool) : List FlowRule :=
  if disconnect_vm then
    [⟨none, none, [], vm, .drop⟩,
     ⟨none, none, [], dut, .output [injected]⟩]
  else
    [⟨none, none, [], vm, .output [dut]⟩,
     ⟨some 10, some "tcp", [("tp_src", "179")], dut, .output [vm, injected]⟩,
     ⟨some 10, some "tcp", [("tp_dst", "179")], dut, .output [vm, injected]⟩,
     ⟨some 10, some "tcp", [("tp_dst", "22")], dut, .output [vm, injected]⟩,
     ⟨some 10, some "tcp", [("tp_src", "22")], dut, .output [vm, injected]⟩,
     ⟨some 10, some "tcp6", [("tp_src", "179")], dut, .output [vm, injected]⟩,
     ⟨some 10, some "tcp6", [("tp_dst", "179")], dut, .output [vm, injected]⟩,
     ⟨some 10, some "tcp6", [("tp_dst", "22")], dut, .output [vm, injected]⟩,
     ⟨some 10, some "tcp6", [("tp_src", "22")], dut, .output [vm, injected]⟩,
     ⟨some 10, some "ip", [("nw_proto", "4")], dut, .output [vm, injected]⟩,
     ⟨some 8, some "ip", [("nw_frag", "yes")], dut, .output [vm, injected]⟩,
     ⟨some 8, some "ipv6", [("nw_frag", "yes")], dut, .output [vm, injected]⟩,
     ⟨some 8, some "icmp", [], dut, .output [vm, injected]⟩,
     ⟨some 8, some "icmp6", [], dut, .output [vm, injected]⟩,
     ⟨some 8, some "udp", [("udp_src", "161")], dut, .output [vm, injected]⟩,
     ⟨some 8, some "udp", [("udp_src", "53")], dut, .output [vm]⟩,
     ⟨some 8, some "udp6", [("udp_src", "161")], dut, .output [vm, injected]⟩,
     ⟨some 6, some "udp6", [("udp_dst", "4784")], dut, .output [injected]⟩,
     ⟨some 5, some "ip", [], dut, .output [injected]⟩,
     ⟨some 5, some "ipv6", [], dut, .output [vm, injected]⟩,
     ⟨some 3, none, [], dut, .output [vm, injected]⟩,
     ⟨some 10, some "ip", [("nw_proto", "89")], dut, .output [vm, injected]⟩,
     ⟨some 10, some "ipv6", [("nw_proto", "89")], dut, .output [vm, injected]⟩,
     ⟨some 10, some "udp", [("udp_dst", "3784")], dut, .output [vm, injected]⟩,
     ⟨some 10, some "udp6", [("udp_dst", "3784")], dut, .output [vm, injected]⟩,
     ⟨some 10, some "udp", [("udp_src", "49152"), ("udp_dst", "3784")], dut, .output [vm, injected]⟩,
     ⟨some 10, some "udp6", [("udp_src", "49152"), ("udp_dst", "3784")], dut, .output [vm, injected]⟩,
     ⟨none, none, [], injected, .output [dut]⟩]

/-- C1 counterexample: with `disconnect_vm=True` (OVS port ids dut=1,
injected=2, vm=3) NO rule matching `in_port=2` (the PTF-injected port) is
installed at all — the PTF-toward-DUT forward at the end of `bind_ovs_ports`
sits inside the `disconnect_vm=False` branch, so it is not "always present". -/
theorem bind_ovs_ports_no_ptf_forward_when_disconnected :
    (bind_ovs_ports_flows 1 2 3 true).all (fun r => !(r.in_port == 2)) = true := by
  decide

/-- C1 (amended): with `disconnect_vm=True` the VM-facing rule is a drop rule
and a DUT-to-PTF forward is installed, but no flow from the PTF-injected port
exists; the forward from PTF toward DUT (and the VM-toward-DUT forward) are
installed only when `disconnect_vm=False`. Hence `disconnect-vms` followed by
`connect-vms` replaces the whole rule set, not only the VM-facing rule. -/
theorem bind_ovs_ports_disconnect_semantics (dut injected vm : Nat)
    (h1 : injected ≠ vm) (h2 : injected ≠ dut) :
    ((⟨none, none, [], vm, .drop⟩ : FlowRule) ∈ bind_ovs_ports_flows dut injected vm true) ∧
    ((⟨none, none, [], dut, .output [injected]⟩ : FlowRule)
      ∈ bind_ovs_ports_flows dut injected vm true) ∧
    (∀ r ∈ bind_ovs_ports_flows dut injected vm true, r.in_port ≠ injected) ∧
    ((⟨none, none, [], injected, .output [dut]⟩ : FlowRule)
      ∈ bind_ovs_ports_flows dut injected vm false) ∧
    ((⟨none, none, [], vm, .output [dut]⟩ : FlowRule)
      ∈ bind_ovs_ports_flows dut injected vm false) := by
  refine ⟨by simp [bind_ovs_ports_flows], by simp [bind_ovs_ports_flows], ?_,
    by simp [bind_ovs_ports_flows], by simp [bind_ovs_ports_flows]⟩
  intro r hr
  fin_cases hr
  · exact fun h => h1 h.symm
  · exact fun h => h2 h.symm

/-- Witness for `bind_ovs_ports_disconnect_semantics` at dut=1, injected=2,
vm=3. -/
theorem bind_ovs_ports_disconnect_semantics_witness :
    (⟨none, none, [], 3, .drop⟩ : FlowRule) ∈ bind_ovs_ports_flows 1 2 3 true :=
  (bind_ovs_ports_disconnect_semantics 1 2 3 (by decide) (by decide)).1

/-- C6: in the `disconnect_vm=False` branch, every protocol-scoped rule for
traffic entering from the DUT-facing port carries an explicit priority
strictly greater than 3, the priority of the catch-all
`in_port=<dut>` forward-everything rule (which is itself installed). -/
theorem bind_ovs_ports_priorities (dut injected vm : Nat) :
    ((⟨some 3, none, [], dut, .output [vm, injected]⟩ : FlowRule)
      ∈ bind_ovs_ports_flows dut injected vm false) ∧
    ∀ r ∈ bind_ovs_ports_flows dut injected vm false,
      r.in_port = dut → r.proto.isSome → ∃ p, r.priority = some p ∧ 3 < p := by
  constructor
  · simp [bind_ovs_ports_flows]
  · intro r hr hport hproto
    fin_cases hr <;>
      first
        | exact ⟨_, rfl, by omega⟩
        | simp at hproto

/-- Witness for `bind_ovs_ports_priorities`: the BGP rule at dut=1,
injected=2, vm=3 has priority 10 > 3. -/
theorem bind_ovs_ports_priorities_witness :
    ∃ p, (⟨some 10, some "tcp", [("tp_src", "179")], 1, .output [3, 2]⟩ : FlowRule).priority
        = some p ∧ 3 < p :=
  (bind_ovs_ports_priorities 1 2 3).2 _ (by simp [bind_ovs_ports_flows]) rfl rfl

/-! ## Shell command gateway: `VMTopology.cmd` (lines 1744-1821)

The environment is modelled by `attempts : Nat → CmdResult`, giving the exit
code and decoded stdout/stderr the (possibly grep-piped) command produces on
its `i`-th execution; each retry re-invokes the full command. -/

/-- One execution attempt: exit code, decoded stdout and stderr. -/
structure CmdResult where
  retCode : Int
  out : String
  err : String

/-- Termination outcome of `VMTopology.cmd`: a returned output, a raised
`Exception`, or the `UnboundLocalError` hit when the loop body never ran. -/
inductive CmdOutcome where
  | ok (out : String)
  | error (msg : String)
  | unboundLocalError
deriving DecidableEq, Repr

/-- Condition on which an attempt returns early: `ret_code != 0` under
`negative`, else `ret_code == 0`. -/
def cmdExpectedB (negative : Bool) (r : CmdResult) : Bool :=
  if negative then !(r.retCode == 0) else r.retCode == 0

/-- `' | ' + grep_cmd_ori if grep_cmd_ori else ''` — Python truthiness on the
optional grep command line. -/
def grepSuffix : Option String → String
  | some g => if g = "" then "" else " | " ++ g
  | none => ""

/-- The exception message
`'ret_code=%d, error message="%s". cmd="%s%s"' % (ret_code, err, cmdline_ori, ...)`. -/
def errMsg (r : CmdResult) (cmdline_ori : String) (grep_cmd_ori : Option String) : String :=
  "ret_code=" ++ toString r.retCode ++ ", error message=\"" ++ r.err ++ "\". cmd=\""
    ++ cmdline_ori ++ grepSuffix grep_cmd_ori ++ "\""

/-- The retry loop of `cmd`: `i` is the index of the next attempt, `fuel` the
number of attempts left, `last` the values of the locals `out`/`ret_code`/`err`
from the previous iteration (`none` before the first iteration).
`.inl out` models the early `return out`; `.inr last` models falling out of
the loop with those locals (possibly never assigned). -/
def cmdLoop (attempts : Nat → CmdResult) (negative : Bool) :
    Nat → Nat → Option CmdResult → Sum String (Option CmdResult)
  | _, 0, last => .inr last
  | i, fuel + 1, _ =>
    let r := attempts i
    if cmdExpectedB negative r then .inl r.out
    else cmdLoop attempts negative (i + 1) fuel (some r)

/-- Embedding of `VMTopology.cmd(cmdline, grep_cmd, retry, negative, ...,
ignore_errors)`: run `for attempt in range(retry)`; on falling out of the
loop, `return out` if `ignore_errors` else `raise Exception(err_msg)`; if the
loop body never executed, the read of `out`/`ret_code` raises
`UnboundLocalError` (even under `ignore_errors`). -/
def cmd (attempts : Nat → CmdResult) (cmdline_ori : String) (grep_cmd_ori : Option String)
    (retry : Int) (negative ignore_errors : Bool) : CmdOutcome :=
  match cmdLoop attempts negative 0 retry.toNat none with
  | .inl out => .ok out
  | .inr none => .unboundLocalError
  | .inr (some r) =>
    if ignore_errors then .ok r.out else .error (errMsg r cmdline_ori grep_cmd_ori)

theorem str_data_append (a b : String) : (a ++ b).data = a.data ++ b.data := rfl

theorem cmdLoop_success (att : Nat → CmdResult) (neg : Bool) :
    ∀ fuel i last k, k < fuel →
      (∀ j, j < k → cmdExpectedB neg (att (i + j)) = false) →
      cmdExpectedB neg (att (i + k)) = true →
      cmdLoop att neg i fuel last = .inl (att (i + k)).out := by
  intro fuel
  induction fuel with
  | zero => intro i last k hk; omega
  | succ fuel ih =>
    intro i last k hk hfail hsucc
    match k with
    | 0 =>
      show (if cmdExpectedB neg (att i) then _ else _) = _
      rw [if_pos (by simpa using hsucc)]
      simp
    | k + 1 =>
      have h0 : cmdExpectedB neg (att i) = false := by simpa using hfail 0 (by omega)
      show (if cmdExpectedB neg (att i) then _ else _) = _
      rw [if_neg (by simp [h0])]
      have harg : i + 1 + k = i + (k + 1) := by omega
      rw [← harg]
      exact ih (i + 1) (some (att i)) k (by omega)
        (fun j hj => by
          have := hfail (j + 1) (by omega)
          simpa [Nat.add_assoc, Nat.add_comm 1 j] using this)
        (by rw [harg]; exact hsucc)

theorem cmdLoop_allfail (att : Nat → CmdResult) (neg : Bool) :
    ∀ fuel i last, (∀ j, j < fuel → cmdExpectedB neg (att (i + j)) = false) →
      cmdLoop att neg i fuel last
        = .inr (if fuel = 0 then last else some (att (i + fuel - 1))) := by
  intro fuel
  induction fuel with
  | zero => intro i last _; rfl
  | succ fuel ih =>
    intro i last hfail
    have h0 : cmdExpectedB neg (att i) = false := by simpa using hfail 0 (by omega)
    show (if cmdExpectedB neg (att i) then _ else _) = _
    rw [if_neg (by simp [h0])]
    rw [ih (i + 1) (some (att i)) (fun j hj => by
      have := hfail (j + 1) (by omega)
      simpa [Nat.add_assoc, Nat.add_comm 1 j] using this)]
    rcases Nat.eq_zero_or_pos fuel with h | h
    · subst h; simp
    · rw [if_neg (by omega), if_neg (by omega)]
      have harg : i + 1 + fuel - 1 = i + (fuel + 1) - 1 := by omega
      rw [harg]

/-- C5: for any retry count `retry ≥ 1`: with `negative=False`, `cmd` returns
the stdout of the first attempt exiting 0; if all `retry` attempts exit
nonzero it raises an exception whose message contains the last exit code, the
last stderr and the original command line — unless `ignore_errors`, in which
case the last observed output is returned. With `negative=True` the success
and failure conditions are inverted. -/
theorem cmd_retry_semantics (att : Nat → CmdResult) (cl : String) (g : Option String)
    (retry : Int) (ign : Bool) (h : 1 ≤ retry) :
    (∀ k : Nat, (k : Int) < retry → (∀ j, j < k → (att j).retCode ≠ 0) →
      (att k).retCode = 0 → cmd att cl g retry false ign = .ok (att k).out) ∧
    ((∀ j : Nat, (j : Int) < retry → (att j).retCode ≠ 0) →
      (cmd att cl g retry false false = .error (errMsg (att (retry.toNat - 1)) cl g) ∧
       ∃ pre mid1 mid2 post, (errMsg (att (retry.toNat - 1)) cl g).data
          = pre ++ (toString (att (retry.toNat - 1)).retCode).data
            ++ mid1 ++ (att (retry.toNat - 1)).err.data ++ mid2 ++ cl.data ++ post) ∧
      cmd att cl g retry false true = .ok (att (retry.toNat - 1)).out) ∧
    (∀ k : Nat, (k : Int) < retry → (∀ j, j < k → (att j).retCode = 0) →
      (att k).retCode ≠ 0 → cmd att cl g retry true ign = .ok (att k).out) ∧
    ((∀ j : Nat, (j : Int) < retry → (att j).retCode = 0) →
      cmd att cl g retry true false = .error (errMsg (att (retry.toNat - 1)) cl g)) := by
  have hbE : ∀ r : CmdResult, cmdExpectedB false r = true ↔ r.retCode = 0 := by
    intro r; simp [cmdExpectedB]
  have hbN : ∀ r : CmdResult, cmdExpectedB true r = true ↔ r.retCode ≠ 0 := by
    intro r; simp [cmdExpectedB]
  refine ⟨?_, ?_, ?_, ?_⟩
  · intro k hk hfail hsucc
    unfold cmd
    rw [cmdLoop_success att false retry.toNat 0 none k (by omega)
      (fun j hj => by
        have := hfail j hj
        simp only [Nat.zero_add]
        rw [← Bool.not_eq_true, hbE]
        exact this)
      (by simp only [Nat.zero_add]; exact (hbE _).mpr hsucc)]
    simp
  · intro hfail
    have hloop : cmdLoop att false 0 retry.toNat none
        = .inr (some (att (retry.toNat - 1))) := by
      rw [cmdLoop_allfail att false retry.toNat 0 none
        (fun j hj => by
          have := hfail j (by omega)
          simp only [Nat.zero_add]
          rw [← Bool.not_eq_true, hbE]
          exact this)]
      rw [if_neg (by omega)]
      simp
    refine ⟨⟨?_, ?_⟩, ?_⟩
    · unfold cmd; rw [hloop]; rfl
    · refine ⟨"ret_code=".data, ", error message=\"".data, "\". cmd=\"".data,
        (grepSuffix g).data ++ "\"".data, ?_⟩
      simp [errMsg, str_data_append, List.append_assoc]
    · unfold cmd; rw [hloop]; rfl
  · intro k hk hfail hsucc
    unfold cmd
    rw [cmdLoop_success att true retry.toNat 0 none k (by omega)
      (fun j hj => by
        have := hfail j hj
        simp only [Nat.zero_add]
        rw [← Bool.not_eq_true, hbN]
        simpa using this)
      (by simp only [Nat.zero_add]; exact (hbN _).mpr hsucc)]
    simp
  · intro hfail
    unfold cmd
    rw [cmdLoop_allfail att true retry.toNat 0 none
      (fun j hj => by
        have := hfail j (by omega)
        simp only [Nat.zero_add]
        rw [← Bool.not_eq_true, hbN]
        simpa using this)]
    rw [if_neg (by omega)]
    simp

/-- Witness for `cmd_retry_semantics`: the first attempt fails with code 1,
the second succeeds, and `cmd` returns the second attempt's stdout. -/
theorem cmd_retry_semantics_witness :
    cmd (fun i => if i = 0 then ⟨1, "x", "boom"⟩ else ⟨0, "good", ""⟩) "ip link show" none
      2 false false = .ok "good" :=
  (cmd_retry_semantics (fun i => if i = 0 then ⟨1, "x", "boom"⟩ else ⟨0, "good", ""⟩)
    "ip link show" none 2 false (by decide)).1 1 (by decide)
    (by decide) (by decide)

/-- C10: with a non-positive retry count the loop body never runs, so `cmd`
fails with `UnboundLocalError` on the never-assigned locals `out`/`ret_code`
instead of returning output or raising the documented command-execution
error — for every environment, mode and `ignore_errors` setting. -/
theorem cmd_zero_retry (att : Nat → CmdResult) (cl : String) (g : Option String)
    (retry : Int) (neg ign : Bool) (h : retry ≤ 0) :
    cmd att cl g retry neg ign = .unboundLocalError := by
  unfold cmd
  rw [show retry.toNat = 0 from by omega]
  rfl

/-- Witness for `cmd_zero_retry` at `retry = 0` with `ignore_errors = true`. -/
theorem cmd_zero_retry_witness :
    cmd (fun _ => ⟨0, "out", ""⟩) "echo hi" none 0 false true = .unboundLocalError :=
  cmd_zero_retry (fun _ => ⟨0, "out", ""⟩) "echo hi" none 0 false true (by decide)

/-! ## Topology validation: `check_topo` (lines 1932-2008)

`check_topo` only inspects the `topo` dictionary and raises on malformed or
duplicate entries; it calls no `VMTopology.cmd` and creates no network object,
so it embeds as a pure function. The running `all_intfs` set is modelled as
the list of members in insertion order (only membership is ever queried). -/

/-- Anchored match of `r"^\d+\.\d+(@\d+)?$"` (the format check for multi-DUT
port references). -/
def matchHostIntfRegex (s : List Char) : Bool :=
  let d1 := s.takeWhile Char.isDigit
  let r1 := s.dropWhile Char.isDigit
  if d1.isEmpty then false
  else match r1 with
    | '.' :: r2 =>
      let d2 := r2.takeWhile Char.isDigit
      let r3 := r2.dropWhile Char.isDigit
      if d2.isEmpty then false
      else match r3 with
        | [] => true
        | '@' :: r4 => !(r4.takeWhile Char.isDigit).isEmpty && (r4.dropWhile Char.isDigit).isEmpty
        | _ => false
    | _ => false

/-- The `attrs` of one VM entry; `check_topo` asserts that `vlans` is a list
and `vm_offset` an int, both of which the typed model guarantees. -/
structure VMAttrs where
  vlans : List PyVal
  vm_offset : Int
deriving DecidableEq, Repr

/-- The parts of the topology dictionary `check_topo` reads: an optional
`host_interfaces` list and an optional `VMs` dict (as an insertion-ordered
association list). -/
structure Topo where
  host_interfaces : Option (List PyVal)
  VMs : Option (List (String × VMAttrs))
deriving DecidableEq, Repr

/-- The `host_interfaces` loop, single-DUT mode: each entry must be a
non-negative int, not previously seen (format message elides the Python
`%s` interpolation). -/
def checkHostSingle : List PyVal → List PyVal → Except PyErr (List PyVal)
  | all, [] => .ok all
  | all, .int n :: rest =>
    if n < 0 then
      .error (.valueError "topo['host_interfaces'] should be a list of positive integers")
    else if .int n ∈ all then
      .error (.valueError "topo['host_interfaces'] double use of host interface")
    else checkHostSingle (all ++ [.int n]) rest
  | _, .str _ :: _ =>
    .error (.valueError "topo['host_interfaces'] should be a list of positive integers")

/-- The inner loop over the comma-separated parts of one multi-DUT
`host_interfaces` entry: format check, duplicate check, insertion. -/
def checkParts : List PyVal → List (List Char) → Except PyErr (List PyVal)
  | all, [] => .ok all
  | all, p :: rest =>
    if matchHostIntfRegex p then
      if PyVal.str (String.mk p) ∈ all then
        .error (.valueError "topo['host_interfaces'] double use of host interface")
      else checkParts (all ++ [PyVal.str (String.mk p)]) rest
    else
      .error (.valueError "topo['host_interfaces'] should be a list of strings of format '<dut>.<dut_intf>' or '<dut>.<dut_intf>,<dut>.<dut_intf>'")

/-- The `host_interfaces` loop, multi-DUT mode: each entry is split on commas
(`host_intf.split(',')`); a non-string entry would crash on `.split`
(`AttributeError`). -/
def checkHostMulti : List PyVal → List PyVal → Except PyErr (List PyVal)
  | all, [] => .ok all
  | all, .str s :: rest =>
    match checkParts all (s.data.splitOn ',') with
    | .error e => .error e
    | .ok all2 => checkHostMulti all2 rest
  | _, .int _ :: _ => .error (.attributeError "'int' object has no attribute 'split'")

/-- The per-vlan format condition: regex match on a string in multi-DUT mode,
`isinstance(vlan, int) and vlan >= 0` otherwise. -/
def vlanCondOk (multi : Bool) (v : PyVal) : Bool :=
  match multi, v with
  | true, .str s => matchHostIntfRegex s.data
  | true, .int _ => false
  | false, .int n => decide (0 ≤ n)
  | false, .str _ => false

/-- The per-VM `vlans` loop: format check (regex in multi-DUT mode,
non-negative int otherwise), duplicate check against everything seen so far,
insertion. -/
def checkVlans (multi : Bool) : List PyVal → List PyVal → Except PyErr (List PyVal)
  | all, [] => .ok all
  | all, v :: rest =>
    if !(vlanCondOk multi v) then
      .error (.valueError "topo['VMs'][...]['vlans'] should be a list of vlans in the expected format")
    else if v ∈ all then
      .error (.valueError "topo['VMs'][...]['vlans'] double use of vlan")
    else checkVlans multi (all ++ [v]) rest

/-- The loop over `topo['VMs'].items()` in insertion order. -/
def checkVMs (multi : Bool) : List PyVal → List (String × VMAttrs) → Except PyErr (List PyVal)
  | all, [] => .ok all
  | all, (_, attrs) :: rest =>
    match checkVlans multi all attrs.vlans with
    | .error e => .error e
    | .ok all2 => checkVMs multi all2 rest

/-- Embedding of the module-level `check_topo(topo, is_multi_duts)`: validates
`host_interfaces` (if present) and every VM's `vlans` (if present) against one
shared `all_intfs` set, returning `(hostif_exists, vms_exists)`. -/
def check_topo (topo : Topo) (is_multi_duts : Bool) : Except PyErr (Bool × Bool) :=
  match topo.host_interfaces with
  | some his =>
    match (if is_multi_duts then checkHostMulti [] his else checkHostSingle [] his) with
    | .error e => .error e
    | .ok all1 =>
      match topo.VMs with
      | some vms =>
        match checkVMs is_multi_duts all1 vms with
        | .error e => .error e
        | .ok _ => .ok (true, true)
      | none => .ok (true, false)
  | none =>
    match topo.VMs with
    | some vms =>
      match checkVMs is_multi_duts [] vms with
      | .error e => .error e
      | .ok _ => .ok (false, true)
    | none => .ok (false, false)

/-- The identifiers `check_topo` inserts into `all_intfs` for one
`host_interfaces` list, in processing order. -/
def hostIds (multi : Bool) (his : List PyVal) : List PyVal :=
  if multi then
    (his.map (fun v =>
      match v with
      | .str s => (s.data.splitOn ',').map (fun p => PyVal.str (String.mk p))
      | .int _ => [])).flatten
  else his

/-- The identifiers `check_topo` inserts for the VM vlan lists, in processing
order. -/
def vmIds (vms : List (String × VMAttrs)) : List PyVal :=
  (vms.map (fun h => h.2.vlans)).flatten

/-- All vlan/port identifiers of a topology in the order `check_topo`
processes them. -/
def topoIds (topo : Topo) (multi : Bool) : List PyVal :=
  hostIds multi (topo.host_interfaces.getD []) ++ vmIds (topo.VMs.getD [])

theorem checkHostSingle_ok (l : List PyVal) :
    ∀ all all2, checkHostSingle all l = .ok all2 →
      all2 = all ++ l ∧ (all.Nodup → all2.Nodup) := by
  induction l with
  | nil => intro all all2 h; cases h; simp
  | cons v rest ih =>
    intro all all2 h
    cases v with
    | int n =>
      rw [checkHostSingle] at h
      split_ifs at h with h1 h2
      have hmem : PyVal.int n ∉ all := h2
      obtain ⟨he, hn⟩ := ih (all ++ [PyVal.int n]) all2 h
      refine ⟨by simpa using he, fun hnd => hn ?_⟩
      rw [List.nodup_append]
      refine ⟨hnd, List.nodup_singleton _, ?_⟩
      intro a ha hb
      rw [List.mem_singleton] at hb
      subst hb
      exact hmem ha
    | str s => cases h

theorem checkHostSingle_err (l : List PyVal) :
    ∀ all e, checkHostSingle all l = .error e → ∃ m, e = .valueError m := by
  induction l with
  | nil => intro all e h; cases h
  | cons v rest ih =>
    intro all e h
    cases v with
    | int n =>
      rw [checkHostSingle] at h
      split_ifs at h with h1 h2
      · exact ⟨_, ((Except.error.injEq _ _).mp h).symm⟩
      · exact ⟨_, ((Except.error.injEq _ _).mp h).symm⟩
      · exact ih _ _ h
    | str s => exact ⟨_, ((Except.error.injEq _ _).mp h).symm⟩

theorem checkParts_ok (ps : List (List Char)) :
    ∀ all all2, checkParts all ps = .ok all2 →
      all2 = all ++ ps.map (fun p => PyVal.str (String.mk p)) ∧ (all.Nodup → all2.Nodup) := by
  induction ps with
  | nil => intro all all2 h; cases h; simp
  | cons p rest ih =>
    intro all all2 h
    rw [checkParts] at h
    split_ifs at h with h1 h2
    have hmem : PyVal.str (String.mk p) ∉ all := h2
    obtain ⟨he, hn⟩ := ih (all ++ [PyVal.str (String.mk p)]) all2 h
    refine ⟨by simpa using he, fun hnd => hn ?_⟩
    rw [List.nodup_append]
    refine ⟨hnd, List.nodup_singleton _, ?_⟩
    intro a ha hb
    rw [List.mem_singleton] at hb
    subst hb
    exact hmem ha

theorem checkParts_err (ps : List (List Char)) :
    ∀ all e, checkParts all ps = .error e → ∃ m, e = .valueError m := by
  induction ps with
  | nil => intro all e h; cases h
  | cons p rest ih =>
    intro all e h
    rw [checkParts] at h
    split_ifs at h with h1 h2
    · exact ⟨_, ((Except.error.injEq _ _).mp h).symm⟩
    · exact ih _ _ h
    · exact ⟨_, ((Except.error.injEq _ _).mp h).symm⟩

theorem checkHostMulti_ok (l : List PyVal) :
    ∀ all all2, checkHostMulti all l = .ok all2 →
      all2 = all ++ hostIds true l ∧ (all.Nodup → all2.Nodup) := by
  induction l with
  | nil => intro all all2 h; cases h; simp [hostIds]
  | cons v rest ih =>
    intro all all2 h
    cases v with
    | str s =>
      rw [checkHostMulti] at h
      cases hP : checkParts all (s.data.splitOn ',') with
      | error e => rw [hP] at h; cases h
      | ok allP =>
        rw [hP] at h
        obtain ⟨heP, hnP⟩ := checkParts_ok _ _ _ hP
        obtain ⟨he, hn⟩ := ih allP all2 h
        subst heP
        refine ⟨?_, fun hnd => hn (hnP hnd)⟩
        rw [he]
        simp [hostIds, List.append_assoc]
    | int n => cases h

theorem checkHostMulti_err (l : List PyVal) (hstr : ∀ v ∈ l, ∃ s, v = PyVal.str s) :
    ∀ all e, checkHostMulti all l = .error e → ∃ m, e = .valueError m := by
  induction l with
  | nil => intro all e h; cases h
  | cons v rest ih =>
    intro all e h
    cases v with
    | str s =>
      rw [checkHostMulti] at h
      cases hP : checkParts all (s.data.splitOn ',') with
      | error e2 =>
        rw [hP] at h
        cases h
        exact checkParts_err _ _ _ hP
      | ok allP =>
        rw [hP] at h
        exact ih (fun v hv => hstr v (List.mem_cons_of_mem _ hv)) allP e h
    | int n =>
      obtain ⟨s, hs⟩ := hstr (PyVal.int n) (List.mem_cons_self _ _)
      cases hs

theorem checkVlans_ok (multi : Bool) (l : List PyVal) :
    ∀ all all2, checkVlans multi all l = .ok all2 →
      all2 = all ++ l ∧ (all.Nodup → all2.Nodup) := by
  induction l with
  | nil => intro all all2 h; cases h; simp
  | cons v rest ih =>
    intro all all2 h
    rw [checkVlans] at h
    split_ifs at h with h1 h2
    have hmem : v ∉ all := h2
    obtain ⟨he, hn⟩ := ih (all ++ [v]) all2 h
    refine ⟨by simpa using he, fun hnd => hn ?_⟩
    rw [List.nodup_append]
    refine ⟨hnd, List.nodup_singleton _, ?_⟩
    intro a ha hb
    rw [List.mem_singleton] at hb
    subst hb
    exact hmem ha

theorem checkVlans_err (multi : Bool) (l : List PyVal) :
    ∀ all e, checkVlans multi all l = .error e → ∃ m, e = .valueError m := by
  induction l with
  | nil => intro all e h; cases h
  | cons v rest ih =>
    intro all e h
    rw [checkVlans] at h
    split_ifs at h with h1 h2
    · exact ⟨_, ((Except.error.injEq _ _).mp h).symm⟩
    · exact ⟨_, ((Except.error.injEq _ _).mp h).symm⟩
    · exact ih _ _ h

theorem checkVMs_ok (multi : Bool) (vms : List (String × VMAttrs)) :
    ∀ all all2, checkVMs multi all vms = .ok all2 →
      all2 = all ++ vmIds vms ∧ (all.Nodup → all2.Nodup) := by
  induction vms with
  | nil => intro all all2 h; cases h; simp [vmIds]
  | cons hd rest ih =>
    intro all all2 h
    rw [checkVMs] at h
    cases hV : checkVlans multi all hd.2.vlans with
    | error e => rw [hV] at h; cases h
    | ok allV =>
      rw [hV] at h
      obtain ⟨heV, hnV⟩ := checkVlans_ok _ _ _ _ hV
      obtain ⟨he, hn⟩ := ih allV all2 h
      subst heV
      refine ⟨?_, fun hnd => hn (hnV hnd)⟩
      rw [he]
      simp [vmIds, List.append_assoc]

theorem checkVMs_err (multi : Bool) (vms : List (String × VMAttrs)) :
    ∀ all e, checkVMs multi all vms = .error e → ∃ m, e = .valueError m := by
  induction vms with
  | nil => intro all e h; cases h
  | cons hd rest ih =>
    intro all e h
    rw [checkVMs] at h
    cases hV : checkVlans multi all hd.2.vlans with
    | error e2 =>
      rw [hV] at h
      cases h
      exact checkVlans_err _ _ _ _ hV
    | ok allV =>
      rw [hV] at h
      exact ih allV e h

/-- C4: whenever some vlan/port identifier occurs twice in the combined
identifier list of `host_interfaces` and the VMs' vlan lists (duplicates
between two VMs, within one VM, within `host_interfaces`, or across the two),
`check_topo` raises a `ValueError`. (In multi-DUT mode every
`host_interfaces` entry must be a string, since a non-string would crash on
`.split(',')` before the duplicate check.) `check_topo` itself performs no
state-changing command — it embeds as a pure function of the topology. -/
theorem check_topo_rejects_duplicates (topo : Topo) (multi : Bool)
    (hdup : ¬ (topoIds topo multi).Nodup)
    (hstr : multi = true → ∀ v ∈ topo.host_interfaces.getD [], ∃ s, v = PyVal.str s) :
    ∃ m, check_topo topo multi = .error (.valueError m) := by
  have hostOk : ∀ his all2,
      (if multi = true then checkHostMulti [] his else checkHostSingle [] his) = .ok all2 →
      all2 = hostIds multi his ∧ all2.Nodup := by
    intro his all2 hok
    cases multi with
    | false =>
      rw [if_neg (by simp)] at hok
      obtain ⟨he, hn⟩ := checkHostSingle_ok _ _ _ hok
      exact ⟨by simpa [hostIds] using he, hn (by simp)⟩
    | true =>
      rw [if_pos rfl] at hok
      obtain ⟨he, hn⟩ := checkHostMulti_ok _ _ _ hok
      exact ⟨by simpa using he, hn (by simp)⟩
  obtain ⟨hi, vm⟩ := topo
  cases hi with
  | none =>
    cases vm with
    | none =>
      exfalso
      apply hdup
      cases multi <;> simp [topoIds, hostIds, vmIds]
    | some vms =>
      cases hV : checkVMs multi [] vms with
      | error e =>
        obtain ⟨m, hm⟩ := checkVMs_err _ _ _ _ hV
        subst hm
        exact ⟨m, by simp only [check_topo]; rw [hV]⟩
      | ok all2 =>
        exfalso
        apply hdup
        obtain ⟨he, hn⟩ := checkVMs_ok _ _ _ _ hV
        have hids : topoIds ⟨none, some vms⟩ multi = vmIds vms := by
          cases multi <;> simp [topoIds, hostIds]
        rw [hids, ← List.nil_append (vmIds vms), ← he]
        exact hn (by simp)
  | some his =>
    cases hH : (if multi = true then checkHostMulti [] his else checkHostSingle [] his) with
    | error e =>
      have herr : ∃ m, e = PyErr.valueError m := by
        cases multi with
        | false =>
          rw [if_neg (by simp)] at hH
          exact checkHostSingle_err _ _ _ hH
        | true =>
          rw [if_pos rfl] at hH
          exact checkHostMulti_err his (by simpa using hstr rfl) [] e hH
      obtain ⟨m, hm⟩ := herr
      subst hm
      exact ⟨m, by simp only [check_topo]; rw [hH]⟩
    | ok all1 =>
      obtain ⟨he1, hn1⟩ := hostOk his all1 hH
      cases vm with
      | none =>
        exfalso
        apply hdup
        have hids : topoIds ⟨some his, none⟩ multi = hostIds multi his := by
          simp [topoIds, vmIds]
        rw [hids, ← he1]
        exact hn1
      | some vms =>
        cases hV : checkVMs multi all1 vms with
        | error e =>
          obtain ⟨m, hm⟩ := checkVMs_err _ _ _ _ hV
          subst hm
          exact ⟨m, by simp only [check_topo, hH, hV]⟩
        | ok all2 =>
          exfalso
          apply hdup
          obtain ⟨he2, hn2⟩ := checkVMs_ok _ _ _ _ hV
          have hids : topoIds ⟨some his, some vms⟩ multi = hostIds multi his ++ vmIds vms := by
            simp [topoIds]
          rw [hids, ← he1, ← he2]
          exact hn2 hn1

/-- Witness for `check_topo_rejects_duplicates`: a single-DUT topology whose
`host_interfaces` uses port 1 twice is rejected with a `ValueError`. -/
theorem check_topo_rejects_duplicates_witness :
    ∃ m, check_topo ⟨some [PyVal.int 1, PyVal.int 1], none⟩ false = .error (.valueError m) :=
  check_topo_rejects_duplicates ⟨some [PyVal.int 1, PyVal.int 1], none⟩ false
    (by decide) (by simp)

/-! ## Idempotent creation: `create_ovs_bridge` (lines 488-496) and
`add_veth_if_to_docker` (lines 719-796)

System state is modelled by the set of OVS bridges, and by the interfaces
present in the root namespace and inside the PTF container. Each shell
command becomes a state transition plus a success flag (`ovs-vsctl
--may-exist add-br` never fails and never duplicates; `ifconfig` on a bridge
succeeds iff the bridge exists). -/

/-- `DEFAULT_MTU = 0` (line 139). -/
def DEFAULT_MTU : Nat := 0

inductive OvsCmd where
  | addBrMayExist (name : String)
  | setMtu (name : String) (mtu : Nat)
  | ifUp (name : String)
deriving DecidableEq, Repr

structure OvsState where
  bridges : List String
deriving DecidableEq, Repr

/-- The commands `create_ovs_bridge` issues:
`ovs-vsctl --may-exist add-br`, `ifconfig ... mtu` when `mtu != DEFAULT_MTU`,
`ifconfig ... up`. -/
def create_ovs_bridge_cmds (bridge_name : String) (mtu : Nat) : List OvsCmd :=
  [OvsCmd.addBrMayExist bridge_name]
    ++ (if mtu ≠ DEFAULT_MTU then [OvsCmd.setMtu bridge_name mtu] else [])
    ++ [OvsCmd.ifUp bridge_name]

/-- Semantics of one command: next state and success flag. -/
def runOvsCmd (s : OvsState) (c : OvsCmd) : OvsState × Bool :=
  match c with
  | .addBrMayExist n =>
    (⟨if n ∈ s.bridges then s.bridges else s.bridges ++ [n]⟩, true)
  | .setMtu n _ => (s, decide (n ∈ s.bridges))
  | .ifUp n => (s, decide (n ∈ s.bridges))

def runOvsCmds : OvsState → List OvsCmd → OvsState × Bool
  | s, [] => (s, true)
  | s, c :: rest =>
    ((runOvsCmds (runOvsCmd s c).1 rest).1,
     (runOvsCmd s c).2 && (runOvsCmds (runOvsCmd s c).1 rest).2)

/-- Embedding of `create_ovs_bridge(bridge_name, mtu)` as a transition on the
bridge set, with the conjunction of all command successes. -/
def create_ovs_bridge (s : OvsState) (bridge_name : String) (mtu : Nat) : OvsState × Bool :=
  runOvsCmds s (create_ovs_bridge_cmds bridge_name mtu)

inductive VethCmd where
  | linkDel (name : String)
  | linkAddVethPeer (ext tmp : String)
  | setMtuRoot (name : String) (mtu : Nat)
  | setMtuNs (name : String) (mtu : Nat)
  | ifUpRoot (name : String)
  | setNetns (name : String)
  | renameInNs (tmp final : String)
  | ifUpNs (name : String)
deriving DecidableEq, Repr

/-- Interfaces present in the root namespace and inside the PTF container. -/
structure NetState2 where
  root : List String
  ptf : List String
deriving DecidableEq, Repr

/-- A command that creates a link, migrates it into the container, or renames
it there (the commands C9 says a re-run must not repeat). -/
def isCreateMigrateRename : VethCmd → Bool
  | .linkAddVethPeer _ _ => true
  | .setNetns _ => true
  | .renameInNs _ _ => true
  | _ => false

/-- Step 1 of `add_veth_if_to_docker`: `if intf_exists(t_int_if): ip link del`. -/
def veth_c1 (s : NetState2) (t : String) : List VethCmd :=
  if t ∈ s.root then [.linkDel t] else []

def veth_s1 (s : NetState2) (t : String) : NetState2 :=
  if t ∈ s.root then ⟨s.root.erase t, s.ptf⟩ else s

/-- Step 2: `if intf_not_exists(ext_if): ip link add ext_if type veth peer
name t_int_if`. -/
def veth_c2 (s1 : NetState2) (ext t : String) : List VethCmd :=
  if ext ∉ s1.root then [.linkAddVethPeer ext t] else []

def veth_s2 (s1 : NetState2) (ext t : String) : NetState2 :=
  if ext ∉ s1.root then ⟨s1.root ++ [ext, t], s1.ptf⟩ else s1

/-- Step 3: the `fp_mtu != DEFAULT_MTU` block — `ip link set ... mtu` on the
external end, then on whichever of `t_int_if` (root), `t_int_if` (container),
`int_if` (container) exists, in that elif order. MTU setting changes no
interface inventory. -/
def veth_mtu (s2 : NetState2) (t intf ext : String) (fp_mtu : Nat) : List VethCmd :=
  if fp_mtu ≠ DEFAULT_MTU then
    [VethCmd.setMtuRoot ext fp_mtu]
      ++ (if t ∈ s2.root then [VethCmd.setMtuRoot t fp_mtu]
          else if t ∈ s2.ptf then [VethCmd.setMtuNs t fp_mtu]
          else if intf ∈ s2.ptf then [VethCmd.setMtuNs intf fp_mtu]
          else [])
  else []

/-- Step 5: migrate the temporary end into the container when it is in the
root namespace and neither it nor the final name exists inside. -/
def veth_c5 (s2 : NetState2) (t intf : String) : List VethCmd :=
  if t ∈ s2.root ∧ t ∉ s2.ptf ∧ intf ∉ s2.ptf then [.setNetns t] else []

def veth_s5 (s2 : NetState2) (t intf : String) : NetState2 :=
  if t ∈ s2.root ∧ t ∉ s2.ptf ∧ intf ∉ s2.ptf then ⟨s2.root.erase t, s2.ptf ++ [t]⟩ else s2

/-- Step 6: rename the migrated temporary end to the final name when the
final name does not exist inside yet. -/
def veth_c6 (s5 : NetState2) (t intf : String) : List VethCmd :=
  if t ∈ s5.ptf ∧ intf ∉ s5.ptf then [.renameInNs t intf] else []

def veth_s6 (s5 : NetState2) (t intf : String) : NetState2 :=
  if t ∈ s5.ptf ∧ intf ∉ s5.ptf then ⟨s5.root, s5.ptf.erase t ++ [intf]⟩ else s5

/-- Embedding of `add_veth_if_to_docker(ext_if, int_if)` with
`create_vlan_subintf=False` (no VLAN sub-interface bookkeeping): computes the
temporary name via `adaptive_temporary_interface(vm_set_name, int_if,
reserved_space=0)`, then performs the guarded delete / create / mtu / up /
migrate / rename / up sequence, returning the issued commands and the final
state. -/
def add_veth_if_to_docker (s : NetState2) (vm_set_name ext_if int_if : String)
    (fp_mtu : Nat) : Except PyErr (List VethCmd × NetState2) :=
  match adaptive_temporary_interface vm_set_name int_if 0 with
  | .error e => .error e
  | .ok t =>
    let s1 := veth_s1 s t
    let s2 := veth_s2 s1 ext_if t
    let s5 := veth_s5 s2 t int_if
    let s6 := veth_s6 s5 t int_if
    .ok (veth_c1 s t ++ veth_c2 s1 ext_if t ++ veth_mtu s2 t int_if ext_if fp_mtu
          ++ [.ifUpRoot ext_if] ++ veth_c5 s2 t int_if ++ veth_c6 s5 t int_if
          ++ [.ifUpNs int_if],
        s6)

theorem create_ovs_bridge_mem_run (s : OvsState) (name : String) (mtu : Nat)
    (hb : name ∈ s.bridges) : create_ovs_bridge s name mtu = (s, true) := by
  by_cases hm : mtu = DEFAULT_MTU <;>
    simp [create_ovs_bridge, create_ovs_bridge_cmds, runOvsCmds, runOvsCmd, hb, hm]

theorem create_ovs_bridge_new_run (s : OvsState) (name : String) (mtu : Nat)
    (hb : name ∉ s.bridges) :
    create_ovs_bridge s name mtu = (⟨s.bridges ++ [name]⟩, true) := by
  by_cases hm : mtu = DEFAULT_MTU <;>
    simp [create_ovs_bridge, create_ovs_bridge_cmds, runOvsCmds, runOvsCmd, hb, hm]

/-- C9: creation is idempotent. (a) `create_ovs_bridge` succeeds, a second
run with the same name succeeds without changing the bridge set, and the name
appears exactly once afterward (the `add-br` uses `--may-exist`, so no
duplicate and no failure). (b) Re-running `add_veth_if_to_docker` when the
final interface name already exists inside the container (and the external
end exists, as any completed run leaves it) issues no link-creation,
migration or rename command — each of those is guarded by an existence
check. -/
theorem creation_idempotent
    (s : OvsState) (name : String) (mtu : Nat) (hnd : s.bridges.Nodup)
    (st : NetState2) (v ext intf t : String) (fp_mtu : Nat)
    (ht : adaptive_temporary_interface v intf 0 = .ok t)
    (hint : intf ∈ st.ptf) (hext : ext ∈ st.root) (hne : ext ≠ t) :
    ((create_ovs_bridge s name mtu).2 = true) ∧
    (create_ovs_bridge (create_ovs_bridge s name mtu).1 name mtu
      = ((create_ovs_bridge s name mtu).1, true)) ∧
    ((create_ovs_bridge s name mtu).1.bridges.count name = 1) ∧
    (∃ cmds st', add_veth_if_to_docker st v ext intf fp_mtu = .ok (cmds, st') ∧
      ∀ c ∈ cmds, isCreateMigrateRename c = false) := by
  have hcreate : ∀ u : OvsState, name ∈ u.bridges →
      create_ovs_bridge u name mtu = (u, true) := fun u hu =>
    create_ovs_bridge_mem_run u name mtu hu
  have hmain : create_ovs_bridge s name mtu
      = (if name ∈ s.bridges then (s, true) else (⟨s.bridges ++ [name]⟩, true)) := by
    by_cases hb : name ∈ s.bridges
    · rw [if_pos hb]; exact create_ovs_bridge_mem_run s name mtu hb
    · rw [if_neg hb]; exact create_ovs_bridge_new_run s name mtu hb
  refine ⟨?_, ?_, ?_, ?_⟩
  · rw [hmain]; split_ifs <;> rfl
  · rw [hmain]
    by_cases hb : name ∈ s.bridges
    · rw [if_pos hb]
      exact hcreate s hb
    · rw [if_neg hb]
      exact hcreate ⟨s.bridges ++ [name]⟩ (by simp)
  · rw [hmain]
    by_cases hb : name ∈ s.bridges
    · rw [if_pos hb]
      have h1 : s.bridges.count name ≤ 1 := List.nodup_iff_count_le_one.mp hnd name
      have h2 : 0 < s.bridges.count name := List.count_pos_iff.mpr hb
      show s.bridges.count name = 1
      omega
    · rw [if_neg hb]
      simp [List.count_append, List.count_eq_zero_of_not_mem hb]
  · have hs1root : ext ∈ (veth_s1 st t).root := by
      unfold veth_s1
      split_ifs with h
      · exact (List.mem_erase_of_ne hne).mpr hext
      · exact hext
    have hs1ptf : (veth_s1 st t).ptf = st.ptf := by
      unfold veth_s1; split_ifs <;> rfl
    have hc2 : veth_c2 (veth_s1 st t) ext t = [] := by
      unfold veth_c2
      rw [if_neg (by simpa using hs1root)]
    have hs2 : veth_s2 (veth_s1 st t) ext t = veth_s1 st t := by
      unfold veth_s2
      rw [if_neg (by simpa using hs1root)]
    have hc5 : veth_c5 (veth_s2 (veth_s1 st t) ext t) t intf = [] := by
      unfold veth_c5
      rw [if_neg]
      rw [hs2, hs1ptf]
      intro hcond
      exact hcond.2.2 hint
    have hs5 : veth_s5 (veth_s2 (veth_s1 st t) ext t) t intf
        = veth_s2 (veth_s1 st t) ext t := by
      unfold veth_s5
      rw [if_neg]
      rw [hs2, hs1ptf]
      intro hcond
      exact hcond.2.2 hint
    have hc6 : veth_c6 (veth_s5 (veth_s2 (veth_s1 st t) ext t) t intf) t intf = [] := by
      unfold veth_c6
      rw [if_neg]
      rw [hs5, hs2, hs1ptf]
      intro hcond
      exact hcond.2 hint
    refine ⟨veth_c1 st t ++ veth_c2 (veth_s1 st t) ext t
        ++ veth_mtu (veth_s2 (veth_s1 st t) ext t) t intf ext fp_mtu
        ++ [.ifUpRoot ext] ++ veth_c5 (veth_s2 (veth_s1 st t) ext t) t intf
        ++ veth_c6 (veth_s5 (veth_s2 (veth_s1 st t) ext t) t intf) t intf
        ++ [.ifUpNs intf],
      veth_s6 (veth_s5 (veth_s2 (veth_s1 st t) ext t) t intf) t intf, ?_, ?_⟩
    · unfold add_veth_if_to_docker
      rw [ht]
    · intro c hc
      simp only [hc2, hc5, hc6, List.append_nil, List.nil_append, List.mem_append] at hc
      rcases hc with ((hc | hc) | hc) | hc
      · unfold veth_c1 at hc
        split_ifs at hc <;> simp at hc
        subst hc
        rfl
      · unfold veth_mtu at hc
        split_ifs at hc <;> simp at hc <;>
          first
            | (rcases hc with hc | hc <;> subst hc <;> rfl)
            | (subst hc; rfl)
      · rw [List.mem_singleton] at hc
        subst hc
        rfl
      · rw [List.mem_singleton] at hc
        subst hc
        rfl

set_option maxRecDepth 10000 in
/-- Witness for `creation_idempotent` at concrete inputs: an OVS state with
bridge `br1`, and a container state where `eth0` is already inside. -/
theorem creation_idempotent_witness :
    (create_ovs_bridge ⟨["br1"]⟩ "br1" 9000).2 = true ∧
    (create_ovs_bridge ⟨["br1"]⟩ "br1" 9000).1.bridges.count "br1" = 1 :=
  have h := creation_idempotent ⟨["br1"]⟩ "br1" 9000 (by decide)
    ⟨["inje-vms-0"], ["eth0"]⟩ "vms" "inje-vms-0" "eth0" "394d52eth0_t" 9000
    rfl (by decide) (by decide) (by decide)
  ⟨h.1, h.2.2.1⟩

end VmTopology
